import Mathlib

/-!
Verification of the algorithmic core of `src/googlecl/service.py`.

Python strings are modelled as `List Char`; a Python `set` of strings
becomes a duplicate-free `List (List Char)` in first-insertion order,
so set equality is permutation (equality of members).  The gdata
collaborator calls
(`GetFeed`, `GetNext`, `raw_input`) are modelled as oracle parameters:
a response for the initial feed request and a trace of responses for
the subsequent requests.  A raised Python exception is modelled as the
`.error` side of `Except`; a printed message or emitted warning is
modelled as a boolean flag in the result record.
-/

/-- `startsWith pat s` holds when `pat` is an initial segment of `s`
(used to model Python string-slice comparisons and `str.find`). -/
def startsWith : List Char → List Char → Bool
  | [], _ => true
  | _ :: _, [] => false
  | p :: ps, c :: cs => p == c && startsWith ps cs

/-- `containsSub pat s` models Python `s.find(pat) != -1`: `pat` occurs
as a contiguous substring of `s`. -/
def containsSub (pat : List Char) : List Char → Bool
  | [] => pat.isEmpty
  | c :: rest => startsWith pat (c :: rest) || containsSub pat rest

/-- `service.py` lines 333-342, `set_max_results(uri, max)`:
append `?max-results=<n>` when the uri contains no `'?'`, append
`&max-results=<n>` when it contains `'?'` but not the substring
`max-results`, and otherwise return the uri unchanged.
`Nat.toDigits 10` models Python `str(max)`. -/
def set_max_results (uri : List Char) (max : Nat) : List Char :=
  let max_str := Nat.toDigits 10 max
  if !(containsSub ['?'] uri) then
    uri ++ "?max-results=".toList ++ max_str
  else
    if !(containsSub "max-results".toList uri) then
      uri ++ "&max-results=".toList ++ max_str
    else
      uri

/-- `service.py` line 653, `tags.replace(', ', ',')`: left-to-right,
non-overlapping replacement of a comma-space pair by a comma. -/
def normSpace : List Char → List Char
  | [] => []
  | ',' :: ' ' :: rest => ',' :: normSpace rest
  | c :: rest => c :: normSpace rest

/-- Python `str.split(',')`; on the empty string it yields one empty
token, exactly as `''.split(',') == ['']`. -/
def splitOnComma : List Char → List (List Char)
  | [] => [[]]
  | ',' :: rest => [] :: splitOnComma rest
  | c :: rest =>
    match splitOnComma rest with
    | [] => [[c]]
    | t :: ts => (c :: t) :: ts

/-- `service.py` lines 653-654: the token set
`set(tags.replace(', ', ',').split(','))`.  A Python `set` of strings
is modelled as a duplicate-free list in first-insertion order; set
equality is membership equality, which for these duplicate-free lists
is permutation. -/
def tokenList (tags : List Char) : List (List Char) :=
  (splitOnComma (normSpace tags)).dedup

/-- Python `set.add`: append the element unless already present. -/
def setAdd (s : List (List Char)) (t : List Char) : List (List Char) :=
  if t ∈ s then s else s ++ [t]

/-- One step of the add-set loop of `service.py` lines 663-669.  Note
`tag[:1]` is a slice of length at most one while `'\-'` is the
two-character string backslash-hyphen, so the first comparison is
transcribed exactly as in the source (where it can never succeed). -/
def addStep (s : List (List Char)) (tag : List Char) : List (List Char) :=
  if tag.take 1 = ['\\', '-'] then setAdd s (tag.drop 1)
  else if tag.take 1 ≠ ['-'] then setAdd s tag
  else s

/-- `service.py` line 655, the comprehension
`set(tag[1:] for tag in tagset if tag[0] == '-')`. -/
def removeList (tags : List Char) : List (List Char) :=
  (((tokenList tags).filter (fun tag => tag.take 1 = ['-'])).map
    (fun tag => tag.drop 1)).dedup

/-- `service.py` lines 660-669: `add_set`, populated by the token loop
only when `len(remove_set) != len(tagset)`. -/
def addList (tags : List Char) : List (List Char) :=
  if (removeList tags).length ≠ (tokenList tags).length then
    (tokenList tags).foldl addStep []
  else []

/-- `service.py` lines 635-670, `generate_tag_sets(tags)`.
Evaluating `tag[0]` on an empty token raises `IndexError` in Python;
that reject path is the `none` result.  Otherwise the result is
`(remove_set, add_set, replace_tags)`, each set modelled as a
duplicate-free list, with `replace_tags` the lines 656-659 test
`'-' in remove_set`. -/
def generate_tag_sets (tags : List Char) :
    Option (List (List Char) × List (List Char) × Bool) :=
  if [] ∈ tokenList tags then none
  else some (removeList tags, addList tags, decide (['-'] ∈ removeList tags))

/-- Decidable equality for `Except`, needed to evaluate concrete runs
of the fallible operations below. -/
instance exceptDecEq {ε α : Type} [DecidableEq ε] [DecidableEq α] :
    DecidableEq (Except ε α)
  | .error x, .error y =>
    if h : x = y then .isTrue (congrArg Except.error h)
    else .isFalse (fun hc => h (by cases hc; rfl))
  | .error _, .ok _ => .isFalse (fun hc => Except.noConfusion hc)
  | .ok _, .error _ => .isFalse (fun hc => Except.noConfusion hc)
  | .ok x, .ok y =>
    if h : x = y then .isTrue (congrArg Except.ok h)
    else .isFalse (fun hc => h (by cases hc; rfl))

/-- A gdata feed as `get_entries` consumes it: the entries of the
current page (`feed.entry`) and the optional next-page link
(`feed.GetNextLink()`, truthy iff present). -/
structure Feed (E : Type) where
  entry : List E
  nextLink : Option (List Char)

/-- The outcome of one `self.GetNext(feed)` collaborator call:
a further feed page, no page (a falsy return, ending the loop), or a
raised `gdata.service.RequestError`. -/
inductive FetchOutcome (E : Type)
  | page (f : Feed E)
  | nopage
  | fail

/-- The feed-source collaborator for one `get_entries` call: the
response of the initial `self.GetFeed(uri)` (a feed, or a raised
`RequestError` modelled as `.error ()`), and the trace of responses to
the successive `self.GetNext` calls. -/
structure FeedSrc (E : Type) where
  getFeed : List Char → Except Unit (Feed E)
  nexts : List (FetchOutcome E)

/-- Result of `get_entries`: the returned entry list, or `.error` when
an uncaught exception escapes; `reported` records the
`print 'Failed to get entries: ...'` of line 176 and `truncated` the
`LeftoverData` warning of lines 181-183. -/
structure GEResult (E : Type) where
  outcome : Except Unit (List E)
  reported : Bool
  truncated : Bool
  deriving DecidableEq

/-- `service.py` lines 185-188, the page-following loop
`while feed and feed.GetNextLink(): feed = self.GetNext(feed); ...`,
run against the trace of `GetNext` responses.  A `.fail` response is a
raised `RequestError`, which line 170's `try` does not cover, so it
escapes as `.error`; a `.nopage` response makes `feed` falsy and ends
the loop.  An exhausted trace with a pending next link is outside the
modelled behaviours and ends the loop. -/
def geLoop {E : Type} (outs : List (FetchOutcome E)) (feed : Feed E)
    (acc : List E) : Except Unit (List E) :=
  if feed.nextLink.isSome then
    match outs with
    | [] => .ok acc
    | .fail :: _ => .error ()
    | .nopage :: _ => .ok acc
    | .page f :: rest => geLoop rest f (acc ++ f.entry)
  else .ok acc

/-- `service.py` lines 189-195: the title filter applied to the
aggregated entries.  The regex or exact-equality comparison against
`entry.title.text` is abstracted into a predicate on entries; `none`
models a falsy `title` argument (`if not title: return all_entries`). -/
def applyTitleFilter {E : Type} (tf : Option (E → Bool)) (l : List E) : List E :=
  match tf with
  | none => l
  | some p => l.filter p

/-- `service.py` lines 153-195, `BaseServiceCL.get_entries`.
`max_results` and `cap_results` are the instance attributes set in
`_set_params`; the `converter` argument only changes how the
collaborator parses a page and is absorbed into the oracle. -/
def get_entries {E : Type} (src : FeedSrc E) (uri : List Char)
    (max_results : Nat) (cap_results : Bool) (tf : Option (E → Bool)) :
    GEResult E :=
  let uri := set_max_results uri max_results
  match src.getFeed uri with
  | .error _ => ⟨.ok [], true, false⟩
  | .ok feed =>
    if feed.nextLink.isSome then
      if cap_results then ⟨.ok (applyTitleFilter tf feed.entry), false, true⟩
      else
        match geLoop src.nexts feed feed.entry with
        | .error e => ⟨.error e, false, false⟩
        | .ok all_entries => ⟨.ok (applyTitleFilter tf all_entries), false, false⟩
    else ⟨.ok (applyTitleFilter tf feed.entry), false, false⟩

/-- A three-page feed source: pages of sizes 2, 2 and 1, with a next
link on the first two pages only. -/
def src3 : FeedSrc Nat :=
  ⟨fun _ => .ok ⟨[1, 2], some "p2".toList⟩,
   [.page ⟨[3, 4], some "p3".toList⟩, .page ⟨[5], none⟩]⟩

/-- A feed source whose first page succeeds with a pending next link
and whose first `GetNext` raises. -/
def srcFail2 : FeedSrc Nat :=
  ⟨fun _ => .ok ⟨[1, 2], some "p2".toList⟩, [.fail]⟩

/-- A feed source whose initial fetch raises `RequestError`. -/
def srcErr : FeedSrc Nat := ⟨fun _ => .error (), []⟩

/-- The `uri_or_entry_list` argument of `get_single_entry`: Python
`None`, a string, a list of entries, or any other object (carrying
only its truthiness, which is all the code inspects before raising). -/
inductive UriOrEntryList (E : Type)
  | noneArg
  | str (s : List Char)
  | lst (l : List E)
  | other (truthy : Bool)

/-- Python truthiness of the `uri_or_entry_list` argument
(`if not uri_or_entry_list`): `None` is falsy, a string or list is
truthy iff non-empty. -/
def uriOrEntryListTruthy {E : Type} : UriOrEntryList E → Bool
  | .noneArg => false
  | .str s => !s.isEmpty
  | .lst l => !l.isEmpty
  | .other b => b

/-- `service.py` lines 233-235, the selection loop: starting from
`selection = -1`, repeatedly read `int(raw_input(...))` until the
value is within `[0, len(entries)-1]`; run against the trace of
numeric replies.  Returns the accepted selection, or `none` when the
trace is exhausted while the loop is still re-prompting. -/
def selectLoop (n : Nat) : List Int → Option Nat
  | [] => none
  | r :: rest => if r < 0 ∨ r > (n : Int) - 1 then selectLoop n rest else some r.toNat

/-- Result of one `get_single_entry` call. `.ret` is a normal return
(`none` models Python `None`), `.exn` an escaped exception (the
explicit `raise Error` for an unexpected argument type, or a
`RequestError` raised below the uncovered part of `get_entries`), and
`.pending` the modelling artifact of a reply trace that ran out while
the selection loop was still waiting on `raw_input`. -/
inductive GSEOut (E : Type)
  | ret (e : Option E)
  | exn
  | pending
  deriving DecidableEq

/-- `get_single_entry` outcome together with whether the feed source
(`self.GetEntries`, hence the network) was consulted and whether the
interactive selection prompt was reached. -/
structure GSEResult (E : Type) where
  out : GSEOut E
  consultedFeed : Bool
  prompted : Bool
  deriving DecidableEq

/-- `service.py` lines 225-236: the part of `get_single_entry` after
`entries` is known: return `None` on an empty list, the sole entry of
a singleton, and otherwise prompt for a selection and return
`entries[selection]`. -/
def selectPhase {E : Type} (entries : List E) (responses : List Int) :
    GSEOut E × Bool :=
  if entries.isEmpty then (.ret none, false)
  else if entries.length = 1 then (.ret entries.head?, false)
  else
    match selectLoop entries.length responses with
    | none => (.pending, true)
    | some k => (.ret entries[k]?, true)

/-- `service.py` lines 199-236, `BaseServiceCL.get_single_entry`:
falsy argument returns `None` at once; a string fetches entries via
`self.GetEntries` (an escaping `RequestError` from there propagates);
a list is used as is; any other type raises `Error`. -/
def get_single_entry {E : Type} (src : FeedSrc E) (max_results : Nat)
    (cap_results : Bool) (uri_or_entry_list : UriOrEntryList E)
    (tf : Option (E → Bool)) (responses : List Int) : GSEResult E :=
  if !uriOrEntryListTruthy uri_or_entry_list then ⟨.ret none, false, false⟩
  else
    match uri_or_entry_list with
    | .str s =>
      match (get_entries src s max_results cap_results tf).outcome with
      | .error _ => ⟨.exn, true, false⟩
      | .ok entries =>
        let r := selectPhase entries responses
        ⟨r.1, true, r.2⟩
    | .lst l =>
      let r := selectPhase l responses
      ⟨r.1, false, r.2⟩
    | .noneArg => ⟨.exn, false, false⟩
    | .other _ => ⟨.exn, false, false⟩

/-- One required-options term of a `Task` (`service.py` lines
348-400): a Python list mixing attribute-name strings with lists of
alternative attribute names. -/
inductive ReqTerm
  | bare (s : String)
  | alt (l : List String)
  deriving DecidableEq

/-- The value `Task.requires` returns: an explicit boolean, the
`choices` list of lists, or Python's implicit `None`. -/
inductive ReqResult
  | rbool (b : Bool)
  | rlist (l : List (List String))
  | rnone
  deriving DecidableEq

/-- Python truthiness of a `Task.requires` return value: booleans are
themselves, a list is truthy iff non-empty, `None` is falsy. -/
def reqTruthy : ReqResult → Bool
  | .rbool b => b
  | .rlist l => !l.isEmpty
  | .rnone => false

/-- `service.py` lines 426-427: the sublists of `self.required` that
are lists containing `attribute`. -/
def reqChoices (required : List ReqTerm) (attr : String) :
    List (List String) :=
  required.filterMap (fun sublist =>
    match sublist with
    | .alt l => if attr ∈ l then some l else none
    | .bare _ => none)

/-- `service.py` lines 409-441, `Task.requires(attribute, options)`.
`options` is the parsed-options object; `getattr(options, item)`
truthiness is modelled as a lookup `String → Bool`, and a falsy
`options` argument (`None`, the default) as `none`.  Python's
`attribute in self.required` compares the string against every term,
so it holds exactly when the string occurs as a bare term. -/
def requires (required : List ReqTerm) (attr : String)
    (options : Option (String → Bool)) : ReqResult :=
  let choices := reqChoices required attr
  match options with
  | some opts =>
    if ReqTerm.bare attr ∈ required then
      .rbool (!opts attr)
    else if !choices.isEmpty then
      if choices.any (fun sublist => sublist.any (fun item => opts item)) then
        .rbool false
      else
        .rbool true
    else .rnone
  | none =>
    if ReqTerm.bare attr ∈ required then .rbool true
    else .rlist choices

/-- A one-element take of a character list is never the two-character
list backslash-hyphen: the escape comparison of `service.py` line 665
can never succeed. -/
theorem take_one_ne_escape (t : List Char) : t.take 1 ≠ ['\\', '-'] := by
  intro h
  have hl := congrArg List.length h
  simp [List.length_take] at hl
  omega

/-- `addStep` with the dead escape branch removed. -/
theorem addStep_eq (s : List (List Char)) (t : List Char) :
    addStep s t = if t.take 1 ≠ ['-'] then setAdd s t else s := by
  simp [addStep, take_one_ne_escape t]

/-- Every member of the fold that builds the add set is a member of
the accumulator or a processed token whose first character is not a
hyphen. -/
theorem mem_addFold (l : List (List Char)) (s : List (List Char)) (x : List Char)
    (h : x ∈ l.foldl addStep s) :
    x ∈ s ∨ ∃ t ∈ l, t.take 1 ≠ ['-'] ∧ x = t := by
  induction l generalizing s with
  | nil => exact .inl h
  | cons t ts ih =>
    rcases ih (addStep s t) h with hs | ⟨u, hu, h1, h2⟩
    · rw [addStep_eq] at hs
      by_cases hc : t.take 1 = ['-']
      · rw [if_neg (by simpa using hc)] at hs
        exact .inl hs
      · rw [if_pos hc] at hs
        unfold setAdd at hs
        by_cases hm : t ∈ s
        · rw [if_pos hm] at hs
          exact .inl hs
        · rw [if_neg hm] at hs
          rcases List.mem_append.1 hs with hs | hs
          · exact .inl hs
          · exact .inr ⟨t, List.mem_cons_self t ts, hc, List.mem_singleton.1 hs⟩
    · exact .inr ⟨u, List.mem_cons_of_mem t hu, h1, h2⟩

/-- The replace-all flag is raised exactly when the literal token `--`
occurs among the comma-separated tokens. -/
theorem dash_mem_removeList (tags : List Char) :
    ['-'] ∈ removeList tags ↔ ['-', '-'] ∈ tokenList tags := by
  simp only [removeList, List.mem_dedup, List.mem_map, List.mem_filter]
  constructor
  · rintro ⟨t, ⟨ht, htake⟩, hdrop⟩
    match t with
    | [] => simp at htake
    | c :: cs =>
      simp only [List.take_succ_cons, List.take_zero, decide_eq_true_eq] at htake
      have hc : c = '-' := by simpa using congrArg (fun l => l.headI) htake
      simp only [List.drop_succ_cons, List.drop_zero] at hdrop
      rw [hc, hdrop] at ht
      exact ht
  · intro h
    exact ⟨['-', '-'], ⟨h, by decide⟩, by decide⟩

/-- C1, as stated, is false on the code: when a page fetch after the
first one raises `RequestError`, the exception escapes `get_entries`
(the `try` of line 170 covers only the initial `GetFeed`), so the
entries accumulated so far are not returned.  Concretely, with a
successful first page `[1, 2]` carrying a next link and a failing
second fetch, the call raises instead of returning `[1, 2]`. -/
theorem claim_C1_counterexample :
    (get_entries srcFail2 "u".toList 5 false none).outcome = .error ()
    ∧ (get_entries srcFail2 "u".toList 5 false none).outcome ≠ .ok [1, 2] :=
  ⟨by decide, by decide⟩

/-- C1 (amended): a failure of the initial page fetch is reported and
yields an empty entry list with no exception; a subsequent `GetNext`
that yields no page is treated as "no more pages" and the entries
accumulated so far are kept; a subsequent `GetNext` that raises a
request error propagates as a hard failure. -/
theorem claim_C1_amended {E : Type} (src : FeedSrc E) (uri : List Char)
    (mr : Nat) (cap : Bool) (tf : Option (E → Bool)) (feed : Feed E)
    (acc : List E) (rest : List (FetchOutcome E)) :
    (src.getFeed (set_max_results uri mr) = .error () →
      get_entries src uri mr cap tf = ⟨.ok [], true, false⟩)
    ∧ (feed.nextLink.isSome →
      geLoop (.nopage :: rest) feed acc = .ok acc)
    ∧ (feed.nextLink.isSome →
      geLoop (.fail :: rest) feed acc = .error ()) := by
  refine ⟨fun h => ?_, fun h => ?_, fun h => ?_⟩
  · simp [get_entries, h]
  · simp [geLoop, h]
  · simp [geLoop, h]

/-- Witness for C1 (amended): a failing initial fetch, and a loop state
with a pending next link receiving a no-page or failing response. -/
theorem claim_C1_witness :
    get_entries srcErr "u".toList 5 false none = ⟨.ok [], true, false⟩
    ∧ geLoop [FetchOutcome.nopage] (⟨[9], some "p".toList⟩ : Feed Nat) [9] = .ok [9]
    ∧ geLoop [FetchOutcome.fail] (⟨[9], some "p".toList⟩ : Feed Nat) [9] = .error () :=
  ⟨(claim_C1_amended srcErr "u".toList 5 false none ⟨[9], some "p".toList⟩ [9] []).1 rfl,
   (claim_C1_amended srcErr "u".toList 5 false none ⟨[9], some "p".toList⟩ [9] []).2.1 rfl,
   (claim_C1_amended srcErr "u".toList 5 false none ⟨[9], some "p".toList⟩ [9] []).2.2 rfl⟩

/-- C2: when the first page carries a next link and `cap_results` is
true, exactly the first page's entries are returned with the
truncation warning; with `cap_results` false the loop concatenates
pages in fetch order, so the 3-page feed with pages of sizes 2, 2, 1
yields all 5 entries untruncated, and with `cap_results` true only the
first 2 entries, truncated. -/
theorem claim_C2 {E : Type} (src : FeedSrc E) (uri : List Char) (mr : Nat)
    (tf : Option (E → Bool)) (feed : Feed E) :
    (src.getFeed (set_max_results uri mr) = .ok feed → feed.nextLink.isSome →
      get_entries src uri mr true tf =
        ⟨.ok (applyTitleFilter tf feed.entry), false, true⟩)
    ∧ get_entries src3 "u".toList 10000 false none = ⟨.ok [1, 2, 3, 4, 5], false, false⟩
    ∧ get_entries src3 "u".toList 10000 true none = ⟨.ok [1, 2], false, true⟩ := by
  refine ⟨fun h hn => ?_, by decide, by decide⟩
  simp [get_entries, h, hn]

/-- Witness for C2: the capped aggregation on the concrete 3-page
feed source. -/
theorem claim_C2_witness :
    get_entries src3 "u".toList 10000 true none =
      ⟨.ok (applyTitleFilter none ([1, 2] : List Nat)), false, true⟩ :=
  (claim_C2 src3 "u".toList 10000 none ⟨[1, 2], some "p2".toList⟩).1 rfl rfl

/-- C4: evaluation at the failing input.  Parsing `\-tag5` leaves the
backslash in place: the produced add set is `{"\-tag5"}`, not the
documented `{"-tag5"}`, because the line 665 comparison
`tag[:1] == '\-'` matches a length-one slice against a two-character
string and so never strips the escape. -/
theorem claim_C4_eval :
    generate_tag_sets "\\-tag5".toList = some ([], ["\\-tag5".toList], false)
    ∧ "-tag5".toList ∉ ["\\-tag5".toList] :=
  ⟨by decide, by decide⟩

/-- C5, as stated, is false on the code: parsing `--, tag6` yields a
non-empty remove set.  The token `--` is handled by the generic
removal rule, so its stripped remainder `-` stays in `remove_set`;
only the replace-all flag and the absence from the add set match the
claim. -/
theorem claim_C5_counterexample :
    generate_tag_sets "--, tag6".toList = some ([['-']], ["tag6".toList], true)
    ∧ ([['-']] : List (List Char)) ≠ [] :=
  ⟨by decide, by decide⟩

/-- C5 (amended): the replace-all marker is the input token `--`; it
sets `replace_tags` exactly when it occurs among the tokens, and it
contributes nothing to the add set, but its stripped remainder `-` is
kept in the remove set: parsing `--, tag6` yields
`remove = {-}`, `add = {tag6}`, `replaceAll = true`. -/
theorem claim_C5_amended (tags : List Char)
    (r a : List (List Char)) (rep : Bool) :
    (generate_tag_sets tags = some (r, a, rep) →
      (rep = true ↔ ['-', '-'] ∈ tokenList tags))
    ∧ generate_tag_sets "--, tag6".toList = some ([['-']], ["tag6".toList], true) := by
  refine ⟨fun h => ?_, by decide⟩
  unfold generate_tag_sets at h
  by_cases he : [] ∈ tokenList tags
  · simp [he] at h
  · rw [if_neg he] at h
    simp only [Option.some.injEq, Prod.mk.injEq] at h
    obtain ⟨-, -, h3⟩ := h
    rw [← h3, decide_eq_true_eq]
    exact dash_mem_removeList tags

/-- Witness for C5 (amended): the marker token is present in the
parsed token set of `--, tag6`. -/
theorem claim_C5_witness : ['-', '-'] ∈ tokenList "--, tag6".toList :=
  ((claim_C5_amended "--, tag6".toList [['-']] ["tag6".toList] true).1
    (by decide)).mp rfl

/-- C6, as stated, is false on the code: the remove and add sets are
not disjoint in general.  Parsing `-a, a` classifies the token `-a`
into the remove set (stripped to `a`) and the token `a` into the add
set, so the member `a` occurs in both sets. -/
theorem claim_C6_counterexample :
    generate_tag_sets "-a, a".toList = some ([['a']], [['a']], false)
    ∧ ¬ (∀ x, x ∈ ([['a']] : List (List Char)) → x ∉ ([['a']] : List (List Char))) :=
  ⟨by decide, fun h => h ['a'] (by decide) (by decide)⟩

/-- C6 (amended): each token is classified into at most one set — an
add-set member is a token whose first character is not a hyphen, kept
verbatim, and a remove-set member is the stripped remainder of a
hyphen-initial token — but because of that stripping the two string
sets may intersect, as on `-a, a` where both equal `{a}`. -/
theorem claim_C6_amended (tags : List Char)
    (r a : List (List Char)) (rep : Bool) :
    (generate_tag_sets tags = some (r, a, rep) →
      (∀ x ∈ a, x ∈ tokenList tags ∧ x.take 1 ≠ ['-'])
      ∧ (∀ x ∈ r, ∃ t ∈ tokenList tags, t.take 1 = ['-'] ∧ x = t.drop 1))
    ∧ generate_tag_sets "-a, a".toList = some ([['a']], [['a']], false) := by
  refine ⟨fun h => ?_, by decide⟩
  unfold generate_tag_sets at h
  by_cases he : [] ∈ tokenList tags
  · simp [he] at h
  · rw [if_neg he] at h
    simp only [Option.some.injEq, Prod.mk.injEq] at h
    obtain ⟨h1, h2, -⟩ := h
    constructor
    · intro x hx
      rw [← h2] at hx
      unfold addList at hx
      by_cases hc : (removeList tags).length ≠ (tokenList tags).length
      · rw [if_pos hc] at hx
        rcases mem_addFold _ _ _ hx with h0 | ⟨t, ht, htop, rfl⟩
        · simp at h0
        · exact ⟨ht, htop⟩
      · rw [if_neg hc] at hx
        simp at hx
    · intro x hx
      rw [← h1] at hx
      unfold removeList at hx
      rw [List.mem_dedup] at hx
      obtain ⟨t, ht, rfl⟩ := List.mem_map.1 hx
      obtain ⟨ht1, ht2⟩ := List.mem_filter.1 ht
      exact ⟨t, ht1, by simpa using ht2, rfl⟩

/-- Witness for C6 (amended): the classification of the two tokens of
`-a, a`. -/
theorem claim_C6_witness :
    (∀ x ∈ ([['a']] : List (List Char)),
      x ∈ tokenList "-a, a".toList ∧ x.take 1 ≠ ['-'])
    ∧ (∀ x ∈ ([['a']] : List (List Char)),
      ∃ t ∈ tokenList "-a, a".toList, t.take 1 = ['-'] ∧ x = t.drop 1) :=
  (claim_C6_amended "-a, a".toList [['a']] [['a']] false).1 (by decide)

/-- C7, as stated, is false on the code: the parser is not total.  On
the empty input the split yields a single empty token and the
comprehension of line 655 evaluates `tag[0]` on it, raising
`IndexError` instead of returning two empty sets. -/
theorem claim_C7_counterexample :
    generate_tag_sets "".toList = none
    ∧ generate_tag_sets "".toList ≠
      some (([] : List (List Char)), ([] : List (List Char)), false) :=
  ⟨by decide, by decide⟩

/-- C7 (amended): the parser rejects (raises `IndexError` on) exactly
the inputs containing an empty comma-separated token — among them the
empty input and any doubled comma — and is total, with every token
classified, on all other inputs. -/
theorem claim_C7_amended (tags : List Char) :
    ([] ∉ tokenList tags → (generate_tag_sets tags).isSome)
    ∧ ([] ∈ tokenList tags → generate_tag_sets tags = none) := by
  constructor <;> intro h <;> simp [generate_tag_sets, h]

/-- Witness for C7 (amended): a clean input parses, a doubled comma
fails. -/
theorem claim_C7_witness :
    (generate_tag_sets "a,b".toList).isSome
    ∧ generate_tag_sets "a,,b".toList = none :=
  ⟨(claim_C7_amended "a,b".toList).1 (by decide),
   (claim_C7_amended "a,,b".toList).2 (by decide)⟩

/-- C8: `set_max_results` appends `?max-results=<n>` when the uri
contains no `'?'`, appends `&max-results=<n>` when it contains `'?'`
but not the substring `max-results`, and otherwise returns the uri
unchanged (a substring test, not key-aware parsing). -/
theorem claim_C8 (uri : List Char) (n : Nat) :
    (containsSub ['?'] uri = false →
      set_max_results uri n = uri ++ "?max-results=".toList ++ Nat.toDigits 10 n)
    ∧ (containsSub ['?'] uri = true →
      containsSub "max-results".toList uri = false →
      set_max_results uri n = uri ++ "&max-results=".toList ++ Nat.toDigits 10 n)
    ∧ (containsSub ['?'] uri = true →
      containsSub "max-results".toList uri = true →
      set_max_results uri n = uri) := by
  refine ⟨fun h => ?_, fun h1 h2 => ?_, fun h1 h2 => ?_⟩ <;>
    simp [set_max_results, *] <;> simpa using h2

/-- Witness for C8: the three examples of the specification, with
`n = 50`. -/
theorem claim_C8_witness :
    set_max_results "http://x/feed".toList 50 =
      "http://x/feed?max-results=50".toList
    ∧ set_max_results "http://x/feed?a=1".toList 50 =
      "http://x/feed?a=1&max-results=50".toList
    ∧ set_max_results "http://x/feed?max-results=10".toList 50 =
      "http://x/feed?max-results=10".toList := by
  refine ⟨?_, ?_, ?_⟩
  · rw [(claim_C8 "http://x/feed".toList 50).1 (by decide)]; decide
  · rw [(claim_C8 "http://x/feed?a=1".toList 50).2.1 (by decide) (by decide)]; decide
  · exact (claim_C8 "http://x/feed?max-results=10".toList 50).2.2 (by decide) (by decide)

/-- C10: a falsy argument (absent, empty string, empty list, or any
other falsy object) returns `None` before the feed source or the
prompt is touched, and a truthy argument that is neither a string nor
a list raises `Error` — also without consulting either capability. -/
theorem claim_C10 {E : Type} (src : FeedSrc E) (mr : Nat) (cap : Bool)
    (arg : UriOrEntryList E) (tf : Option (E → Bool)) (resp : List Int) :
    (uriOrEntryListTruthy arg = false →
      get_single_entry src mr cap arg tf resp = ⟨.ret none, false, false⟩)
    ∧ get_single_entry src mr cap (.other true) tf resp = ⟨.exn, false, false⟩ := by
  refine ⟨fun h => ?_, rfl⟩
  simp [get_single_entry, h]

/-- Witness for C10: the `None` argument. -/
theorem claim_C10_witness :
    get_single_entry srcErr 1 false UriOrEntryList.noneArg none [] =
      ⟨.ret none, false, false⟩ :=
  (claim_C10 srcErr 1 false .noneArg none []).1 rfl

/-- C3: with a supplied context, the truthiness of `Task.requires` is
the still-needed predicate: for a bare required term, true iff the
context lacks a truthy value for it; for an attribute occurring in
alternative groups (and not as a bare term), true iff every group
containing it has no member with a truthy value; false when the
attribute occurs in neither required form.  The first conjunct pins
down `reqChoices` as exactly the groups containing the attribute. -/
theorem claim_C3 (required : List ReqTerm) (attr : String) (ctx : String → Bool) :
    (∀ g, g ∈ reqChoices required attr ↔ ReqTerm.alt g ∈ required ∧ attr ∈ g)
    ∧ (ReqTerm.bare attr ∈ required →
        (reqTruthy (requires required attr (some ctx)) = true ↔ ctx attr = false))
    ∧ (ReqTerm.bare attr ∉ required → reqChoices required attr ≠ [] →
        (reqTruthy (requires required attr (some ctx)) = true ↔
          ∀ g ∈ reqChoices required attr, ∀ m ∈ g, ctx m = false))
    ∧ (ReqTerm.bare attr ∉ required → reqChoices required attr = [] →
        reqTruthy (requires required attr (some ctx)) = false) := by
  refine ⟨fun g => ?_, fun h => ?_, fun h hne => ?_, fun h he => ?_⟩
  · simp only [reqChoices, List.mem_filterMap]
    constructor
    · rintro ⟨t, ht, hf⟩
      cases t with
      | bare s => simp at hf
      | alt l =>
        dsimp only at hf
        by_cases hm : attr ∈ l
        · rw [if_pos hm] at hf
          injection hf with hf
          subst hf
          exact ⟨ht, hm⟩
        · rw [if_neg hm] at hf
          exact Option.noConfusion hf
    · rintro ⟨ht, hm⟩
      exact ⟨.alt g, ht, if_pos hm⟩
  · simp [requires, reqTruthy, h]
  · have hie : (reqChoices required attr).isEmpty = false := by
      cases hc : reqChoices required attr with
      | nil => exact absurd hc hne
      | cons x xs => rfl
    by_cases hany : (reqChoices required attr).any
        (fun sublist => sublist.any (fun item => ctx item)) = true
    · have hreq : requires required attr (some ctx) = .rbool false := by
        simp [requires, h, hie, hany]
      rw [hreq]
      simp only [reqTruthy, Bool.false_eq_true, false_iff]
      rw [List.any_eq_true] at hany
      obtain ⟨g, hg, hg2⟩ := hany
      rw [List.any_eq_true] at hg2
      obtain ⟨m, hm, hmt⟩ := hg2
      intro hall
      have := hall g hg m hm
      rw [this] at hmt
      cases hmt
    · have hreq : requires required attr (some ctx) = .rbool true := by
        simp only [Bool.not_eq_true] at hany
        simp [requires, h, hie, hany]
      rw [hreq]
      simp only [reqTruthy, true_iff]
      intro g hg m hm
      simp only [Bool.not_eq_true, List.any_eq_false] at hany
      exact hany g hg m hm
  · simp [requires, reqTruthy, h, he]

/-- Witness for C3: the specification's example, bare terms `a, b` and
alternative group `[c, d]`, evaluated with an empty context. -/
theorem claim_C3_witness :
    (reqTruthy (requires [ReqTerm.bare "a", ReqTerm.bare "b",
        ReqTerm.alt ["c", "d"]] "a" (some (fun _ => false))) = true ↔
      (fun _ : String => false) "a" = false)
    ∧ (reqTruthy (requires [ReqTerm.bare "a", ReqTerm.bare "b",
        ReqTerm.alt ["c", "d"]] "c" (some (fun _ => false))) = true ↔
      ∀ g ∈ reqChoices [ReqTerm.bare "a", ReqTerm.bare "b",
        ReqTerm.alt ["c", "d"]] "c", ∀ m ∈ g, (fun _ : String => false) m = false)
    ∧ reqTruthy (requires [ReqTerm.bare "a", ReqTerm.bare "b",
        ReqTerm.alt ["c", "d"]] "z" (some (fun _ => false))) = false :=
  ⟨(claim_C3 [ReqTerm.bare "a", ReqTerm.bare "b", ReqTerm.alt ["c", "d"]] "a"
      (fun _ => false)).2.1 (by decide),
   (claim_C3 [ReqTerm.bare "a", ReqTerm.bare "b", ReqTerm.alt ["c", "d"]] "c"
      (fun _ => false)).2.2.1 (by decide) (by decide),
   (claim_C3 [ReqTerm.bare "a", ReqTerm.bare "b", ReqTerm.alt ["c", "d"]] "z"
      (fun _ => false)).2.2.2 (by decide) (by decide)⟩

/-- Out-of-range replies are skipped by the selection loop. -/
theorem selectLoop_skip (n : Nat) (pre rest : List Int)
    (h : ∀ r ∈ pre, r < 0 ∨ r > (n : Int) - 1) :
    selectLoop n (pre ++ rest) = selectLoop n rest := by
  induction pre with
  | nil => rfl
  | cons r rs ih =>
    rw [List.cons_append]
    show selectLoop n (r :: (rs ++ rest)) = _
    rw [selectLoop, if_pos (h r (List.mem_cons_self r rs))]
    exact ih (fun x hx => h x (List.mem_cons_of_mem r hx))

/-- The first in-range reply is accepted by the selection loop. -/
theorem selectLoop_accept (n : Nat) (rest : List Int) (k : Int)
    (h0 : 0 ≤ k) (h1 : k ≤ (n : Int) - 1) :
    selectLoop n (k :: rest) = some k.toNat := by
  rw [selectLoop, if_neg]
  push_neg
  exact ⟨h0, h1⟩

/-- C9, as stated, is false on the code: the selection is 0-based, not
1-based.  With the two entries `[10, 20]` and the replies `2, 0`, a
1-based selection would accept `2` and return the second entry `20`;
the code rejects `2` as out of range, re-prompts, accepts `0` and
returns the first entry `10`. -/
theorem claim_C9_counterexample :
    (get_single_entry srcErr 1 false (.lst [10, 20]) none [2, 0]).out =
      GSEOut.ret (some 10)
    ∧ (get_single_entry srcErr 1 false (.lst [10, 20]) none [2, 0]).out ≠
      GSEOut.ret (some 20) :=
  ⟨by decide, by decide⟩

/-- C9 (amended): single-entry selection returns absent for the empty
entry list, the sole entry of a singleton, and for two or more entries
re-prompts while replies are outside `[0, count-1]` and then returns
the entry at the first accepted reply, used as a 0-based index. -/
theorem claim_C9_amended {E : Type} (src : FeedSrc E) (mr : Nat) (cap : Bool)
    (tf : Option (E → Bool)) (entries : List E) (resp pre rest : List Int)
    (k : Int) :
    ((get_single_entry src mr cap (.lst ([] : List E)) tf resp).out = .ret none)
    ∧ (∀ e : E, (get_single_entry src mr cap (.lst [e]) tf resp).out = .ret (some e))
    ∧ (2 ≤ entries.length →
        (∀ r ∈ pre, r < 0 ∨ r > (entries.length : Int) - 1) →
        0 ≤ k → k ≤ (entries.length : Int) - 1 →
        (get_single_entry src mr cap (.lst entries) tf (pre ++ k :: rest)).out =
          .ret entries[k.toNat]?) := by
  refine ⟨rfl, fun e => rfl, fun h2 hpre h0 h1 => ?_⟩
  have hne : entries.isEmpty = false := by
    cases entries with
    | nil => simp at h2
    | cons a l => rfl
  have hlen1 : entries.length ≠ 1 := by omega
  have htr : uriOrEntryListTruthy (UriOrEntryList.lst entries) = true := by
    simp [uriOrEntryListTruthy, hne]
  simp only [get_single_entry, htr, Bool.not_true, Bool.false_eq_true, if_false]
  simp only [selectPhase, hne, Bool.false_eq_true, if_false, hlen1, if_neg]
  rw [selectLoop_skip entries.length pre (k :: rest) hpre,
    selectLoop_accept entries.length rest k h0 h1]

/-- Witness for C9 (amended): entries `[10, 20]`, one out-of-range
reply `5` followed by the in-range reply `1`. -/
theorem claim_C9_witness :
    (get_single_entry srcErr 1 false (.lst [10, 20]) none ([5] ++ 1 :: [])).out =
      GSEOut.ret (([10, 20] : List Nat)[(1 : Int).toNat]?) :=
  (claim_C9_amended srcErr 1 false none [10, 20] [] [5] [] 1).2.2
    (by decide) (by decide) (by decide) (by decide)
